import Mathlib

/-!
Verification of the navigation engine in
`src/modules/@angular/router/src/router.ts`.

The development shallowly embeds the three layers of the source:

1. the navigation sequencer (`Router.scheduleNavigation` / `Router.runNavigate`):
   the asynchronous promise pipeline is embedded as a pure function from the
   router state, the navigation inputs and a description of what the
   asynchronous stages produced (the `PipelineOutcome`) to the resulting state,
   the emitted events, the location-collaborator calls and the settled promise
   value;
2. the guard orchestration (`PreActivation`): `traverse` and friends are
   embedded as functions producing the ordered check list, and `checkGuards`
   as the boolean denotation of the rx pipeline `from(checks).map(...)
   .mergeAll().every(result === true)`;
3. the activation committer (`ActivateRoutes`): embedded as functions
   producing the ordered list of mount/unmount/advance operations.

External collaborators (url serializer, location, injector, outlet directive)
are modelled at their interfaces, as parameters or as emitted operations.
-/

namespace Router

/-! ## Navigation sequencer (`Router.scheduleNavigation`, `Router.runNavigate`)

`UrlTree` values and `RouterState` values are opaque to the sequencer: it only
serializes the former and swaps the latter.  They are embedded as `Nat`
identities.  The url serializer (`this.urlSerializer.serialize`, an external
collaborator) is a parameter `ser`. -/

abbrev UrlTree := Nat
abbrev RState := Nat
abbrev RStateSnapshot := Nat
abbrev ErrId := Nat

/-- Embeds the event classes `NavigationStart`, `NavigationEnd`,
`NavigationCancel`, `NavigationError` and `RoutesRecognized` with the payloads
their constructors take in the source. -/
inductive REvent where
  | navigationStart (id : Nat) (url : String)
  | navigationEnd (id : Nat) (url : String) (urlAfterRedirects : String)
  | navigationCancel (id : Nat) (url : String)
  | navigationError (id : Nat) (url : String) (error : ErrId)
  | routesRecognized (id : Nat) (url : String) (urlAfterRedirects : String)
      (state : RStateSnapshot)
deriving DecidableEq, Repr

/-- Calls made on the external location collaborator (`this.location`). -/
inductive LocationOp where
  | go (path : String)
  | replaceState (path : String)
deriving DecidableEq, Repr

/-- Settlement of the promise returned by `runNavigate`. -/
inductive NavResult where
  | resolved (b : Bool)
  | rejected (e : ErrId)
deriving DecidableEq, Repr

/-- Mutable fields of the `Router` class touched by the pipeline:
`navigationId`, `currentUrlTree`, `currentRouterState`. -/
structure RouterM where
  navigationId : Nat
  currentUrlTree : UrlTree
  currentRouterState : RState
deriving DecidableEq, Repr

/-- Description of what the asynchronous stages of one `runNavigate` pipeline
produce.  `applyRedirects`/`recognize` may reject before the
`RoutesRecognized` event is emitted (`preRecognizeError`); any later stage
(`resolve`, `createRouterState`, `traverse`, `checkGuards`, `resolveData`) may
reject after it (`postRecognizeError`); otherwise the pipeline reaches the
`forEach` callback with an applied url, a new state and the `checkGuards`
verdict, and the synchronous activation inside the callback may itself throw
(`activationError`, consulted only when the commit branch runs). -/
inductive PipelineOutcome where
  | preRecognizeError (e : ErrId)
  | postRecognizeError (appliedUrl : UrlTree) (snapshot : RStateSnapshot) (e : ErrId)
  | completed (appliedUrl : UrlTree) (snapshot : RStateSnapshot) (newState : RState)
      (shouldActivate : Bool) (activationError : Option ErrId)
deriving DecidableEq, Repr

/-- Everything one `runNavigate` call produces: the final values of the
mutable router fields, the events pushed to `routerEvents`, the calls made on
the location collaborator, and the settled promise value. -/
structure RunResult where
  final : RouterM
  events : List REvent
  locOps : List LocationOp
  result : NavResult
deriving DecidableEq, Repr

/-- Embeds `Router.runNavigate(url, preventPushState, id)`.

Parameters beyond the source arguments: `self` is the router state when the
call runs, so `self.navigationId` is the counter value at the entry check
(line 302); `navIdAtCommit` is the counter value when the `forEach` callback
re-checks it (line 354), which may differ because every stage before it is a
suspension point; `outcome` describes what the asynchronous stages produce;
`ser` is the url serializer and `locPath` the location collaborator current
path (so `isCurrentPathEqualTo p` is `locPath = p`). -/
def runNavigate (self : RouterM) (ser : UrlTree → String) (locPath : String)
    (url : UrlTree) (preventPushState : Bool) (id : Nat)
    (navIdAtCommit : Nat) (outcome : PipelineOutcome) : RunResult :=
  if id ≠ self.navigationId then
    -- line 302-306: stale at entry: reset the browser url to the current
    -- tree, emit NavigationCancel, resolve false.
    { final := self
      events := [.navigationCancel id (ser url)]
      locOps := [.go (ser self.currentUrlTree)]
      result := .resolved false }
  else
    -- lines 315-316: `storedState`/`storedUrl` captured for the error path.
    let storedState := self.currentRouterState
    let storedUrl := self.currentUrlTree
    match outcome with
    | .preRecognizeError e =>
        -- the rejection reaches the `.then` error handler (lines 381-385).
        { final := { self with
            currentRouterState := storedState, currentUrlTree := storedUrl }
          events := [.navigationError id (ser url) e]
          locOps := []
          result := .rejected e }
    | .postRecognizeError appliedUrl snapshot e =>
        -- RoutesRecognized (line 326) was emitted before the stage rejected.
        { final := { self with
            currentRouterState := storedState, currentUrlTree := storedUrl }
          events := [.routesRecognized id (ser url) (ser appliedUrl) snapshot,
                     .navigationError id (ser url) e]
          locOps := []
          result := .rejected e }
    | .completed appliedUrl snapshot newState shouldActivate activationError =>
        let recognized :=
          REvent.routesRecognized id (ser url) (ser appliedUrl) snapshot
        if shouldActivate = false ∨ id ≠ navIdAtCommit then
          -- lines 354-357: guard denial or stale at commit: NavigationCancel,
          -- `navigationIsSuccessful = false`; the `forEach` promise then
          -- resolves, so the success handler (lines 376-379) still emits
          -- NavigationEnd and resolves the promise with false.
          { final := self
            events := [recognized, .navigationCancel id (ser url),
                       .navigationEnd id (ser url) (ser appliedUrl)]
            locOps := []
            result := .resolved false }
        else
          match activationError with
          | some e =>
              -- lines 360-363 ran (the pair was swapped) and activation threw
              -- before the location update; the error handler (lines 381-385)
              -- restores both captured values and rejects.
              { final := { self with
                  currentRouterState := storedState, currentUrlTree := storedUrl }
                events := [recognized, .navigationError id (ser url) e]
                locOps := []
                result := .rejected e }
          | none =>
              -- lines 360-373: commit; lines 365-372: location sync;
              -- lines 376-379: NavigationEnd and resolve true.
              { final := { self with
                  currentUrlTree := appliedUrl, currentRouterState := newState }
                events := [recognized,
                           .navigationEnd id (ser url) (ser appliedUrl)]
                locOps :=
                  if preventPushState then []
                  else if locPath = ser appliedUrl then
                    [.replaceState (ser appliedUrl)]
                  else [.go (ser appliedUrl)]
                result := .resolved true }

/-- Embeds `Router.scheduleNavigation(url, preventPushState)` up to the
asynchronous hand-off: allocate `id = ++navigationId`, emit `NavigationStart`.
Returns the updated router fields, the allocated id and the emitted event. -/
def scheduleNavigation (self : RouterM) (ser : UrlTree → String) (url : UrlTree) :
    RouterM × Nat × REvent :=
  let id := self.navigationId + 1
  ({ self with navigationId := id }, id, .navigationStart id (ser url))

end Router

namespace Guards

/-! ## Guard orchestration data model

`ActivatedRouteSnapshot` keeps the fields the guard phase reads: the matched
route-table entry (`_routeConfig`, null for the synthetic root), the resolved
parameters, the outlet name and the component identifier.  Route-config
entries are compared by identity in the source (`===`); they are embedded
with a stable identity token `cfgId` so that structural equality coincides
with identity. -/

abbrev GuardId := Nat
abbrev ComponentId := Nat
abbrev Params := List (String × String)

/-- Embeds a route-table entry with the guard-related fields `canActivate`,
`canActivateChild` and `canDeactivate` (token lists) and an identity token. -/
structure RouteConfig where
  cfgId : Nat
  canActivate : List GuardId
  canActivateChild : List GuardId
  canDeactivate : List GuardId
deriving DecidableEq, Repr

/-- Embeds `ActivatedRouteSnapshot` (fields read by the router core). -/
structure ActivatedRouteSnapshot where
  routeConfig : Option RouteConfig
  params : Params
  outlet : String
  component : Option ComponentId
deriving DecidableEq, Repr

/-- Modelled from the spec: `shallowEqual` lives in `utils/collection`, which
is not part of the sources; per the spec, parameters are compared shallowly,
two parameter maps being equal when they bind the same keys to the same
values. -/
def shallowEqual (a b : Params) : Bool :=
  a.length == b.length && a.all (fun kv => b.lookup kv.1 == some kv.2)

/-- Result of looking up a guard token in the injector and invoking it
(an external collaborator boundary).  A guard may return any value,
synchronously or eventually; the pipeline only tests the normalized value
with `result === true`, so the environment records exactly that bit for each
invocation form (`canActivate`, `canActivateChild`, `canDeactivate`). -/
structure GuardEnv where
  canActivateResult : GuardId → ActivatedRouteSnapshot → Bool
  canActivateChildResult : GuardId → ActivatedRouteSnapshot → Bool
  canDeactivateResult : GuardId → Option ComponentId → ActivatedRouteSnapshot → Bool

/-- Embeds `PreActivation.runCanActivate(future)`: null or empty `canActivate`
yields true, otherwise the conjunction (`andObservables`) of the guard
results. -/
def runCanActivate (g : GuardEnv) (future : ActivatedRouteSnapshot) : Bool :=
  match future.routeConfig with
  | none => true
  | some cfg =>
    if cfg.canActivate.isEmpty then true
    else cfg.canActivate.all (fun c => g.canActivateResult c future)

/-- Embeds `PreActivation.extractCanActivateChild(p)`: null when `p` has no
config or no `canActivateChild` guards, otherwise the node paired with its
guard list. -/
def extractCanActivateChild (p : ActivatedRouteSnapshot) :
    Option (ActivatedRouteSnapshot × List GuardId) :=
  match p.routeConfig with
  | none => none
  | some cfg =>
    if cfg.canActivateChild.isEmpty then none else some (p, cfg.canActivateChild)

/-- Embeds `PreActivation.runCanActivateChild(path)`: the strict ancestors
(`path.slice(0, path.length - 1)`) are reversed to nearest-ancestor-first,
each contributing its own `canActivateChild` guard list via
`extractCanActivateChild` (nulls filtered out); every guard is invoked with
`future = path[path.length - 1]` and the whole is conjoined.  The inner
`path.getLast?` match is reachable with `none` only on an empty path, which
the traversal never records. -/
def runCanActivateChild (g : GuardEnv) (path : List ActivatedRouteSnapshot) : Bool :=
  let canActivateChildGuards :=
    (path.take (path.length - 1)).reverse.filterMap extractCanActivateChild
  canActivateChildGuards.all (fun d =>
    d.2.all (fun c =>
      match path.getLast? with
      | some future => g.canActivateChildResult c future
      | none => true))

/-- Embeds `PreActivation.runCanDeactivate(component, curr)`. -/
def runCanDeactivate (g : GuardEnv) (component : Option ComponentId)
    (curr : ActivatedRouteSnapshot) : Bool :=
  match curr.routeConfig with
  | none => true
  | some cfg =>
    if cfg.canDeactivate.isEmpty then true
    else cfg.canDeactivate.all (fun c => g.canDeactivateResult c component curr)

/-- Embeds the two check classes recorded by the tree diff: `CanActivate`
(carrying `path`, the future path from the root to the node) and
`CanDeactivate` (carrying the outgoing component and snapshot). -/
inductive Check where
  | canActivate (path : List ActivatedRouteSnapshot)
  | canDeactivate (component : Option ComponentId) (route : ActivatedRouteSnapshot)
deriving DecidableEq, Repr

/-- Well-formedness recorded by construction in the source: a `CanActivate`
check never carries an empty path (`CanActivate.route` reads
`path[path.length - 1]`). -/
def Check.wfb : Check → Bool
  | .canActivate path => !path.isEmpty
  | .canDeactivate _ _ => true

/-- Embeds the per-check evaluation inside `PreActivation.checkGuards`: a
`CanActivate` check conjoins `runCanActivate(s.route)` and
`runCanActivateChild(s.path)` (`andObservables` over the pair); a
`CanDeactivate` check runs `runCanDeactivate`.  On the never-recorded empty
path, where the source would fault reading `route._routeConfig` of
`undefined`, the embedding returns false. -/
def evalCheck (g : GuardEnv) : Check → Bool
  | .canActivate path =>
    match path.getLast? with
    | some route => runCanActivate g route && runCanActivateChild g path
    | none => false
  | .canDeactivate component route => runCanDeactivate g component route

/-- Embeds `PreActivation.checkGuards()`: zero checks yield
`Observable.of(true)`; otherwise
`from(checks).map(...).mergeAll().every(result => result === true)`, whose
denotation is the conjunction of the per-check results in order. -/
def checkGuards (g : GuardEnv) (checks : List Check) : Bool :=
  if checks.isEmpty then true
  else checks.all (evalCheck g)

/-- Identifies one predicate invocation performed by `checkGuards`: which
guard token, through which invocation form, against which snapshot. -/
inductive Pred where
  | act (c : GuardId) (future : ActivatedRouteSnapshot)
  | child (c : GuardId) (future : ActivatedRouteSnapshot)
  | deact (c : GuardId) (component : Option ComponentId)
      (curr : ActivatedRouteSnapshot)
deriving DecidableEq, Repr

/-- Evaluates one predicate invocation in a guard environment. -/
def evalPred (g : GuardEnv) : Pred → Bool
  | .act c f => g.canActivateResult c f
  | .child c f => g.canActivateChildResult c f
  | .deact c comp r => g.canDeactivateResult c comp r

/-- Flattened list of the predicate invocations of one check, in the order
`checkGuards` combines them: for a `CanActivate` check the node's own
`canActivate` guards then the ancestors' `canActivateChild` guards
(nearest ancestor first); for a `CanDeactivate` check the outgoing config's
`canDeactivate` guards. -/
def predsOfCheck : Check → List Pred
  | .canActivate path =>
    match path.getLast? with
    | some route =>
      (match route.routeConfig with
       | none => []
       | some cfg => cfg.canActivate.map (fun c => Pred.act c route)) ++
      (((path.take (path.length - 1)).reverse.filterMap
          extractCanActivateChild).map
        (fun d => d.2.map (fun c => Pred.child c route))).flatten
    | none => []
  | .canDeactivate component route =>
    match route.routeConfig with
    | none => []
    | some cfg => cfg.canDeactivate.map (fun c => Pred.deact c component route)

/-- Flattened predicate invocations of an ordered check list. -/
def predsOfChecks (checks : List Check) : List Pred :=
  (checks.map predsOfCheck).flatten

end Guards

open Guards

/-! ## Slot registry (`RouterOutlet` / `RouterOutletMap`)

A `RouterOutlet` directive is external; the router core reads `isActivated`,
`component`, `activatedRoute.snapshot` (embedded as the `snapshot` field) and
the nested registry `outletMap`, whose `_outlets` object is embedded as an
association list in insertion order (JS object iteration order). -/

inductive RouterOutlet where
  | mk (isActivated : Bool) (component : Option ComponentId)
      (snapshot : ActivatedRouteSnapshot)
      (outletMap : List (String × RouterOutlet))

abbrev RouterOutletMap := List (String × RouterOutlet)

def RouterOutlet.isActivated : RouterOutlet → Bool
  | .mk b _ _ _ => b

def RouterOutlet.component : RouterOutlet → Option ComponentId
  | .mk _ c _ _ => c

def RouterOutlet.snapshot : RouterOutlet → ActivatedRouteSnapshot
  | .mk _ _ s _ => s

def RouterOutlet.outletMap : RouterOutlet → RouterOutletMap
  | .mk _ _ _ m => m

theorem RouterOutlet.sizeOf_outletMap (o : RouterOutlet) :
    sizeOf o.outletMap < sizeOf o := by
  cases o with
  | mk b c s m => simp [RouterOutlet.outletMap]

/-- Embeds `TreeNode<ActivatedRouteSnapshot>`. -/
inductive TreeNode where
  | mk (value : ActivatedRouteSnapshot) (children : List TreeNode)

def TreeNode.value : TreeNode → ActivatedRouteSnapshot
  | .mk v _ => v

def TreeNode.children : TreeNode → List TreeNode
  | .mk _ cs => cs

theorem TreeNode.sizeOf_children (n : TreeNode) :
    sizeOf n.children < sizeOf n := by
  cases n with
  | mk v cs => simp [TreeNode.children]

/-- Inserts into a JS-object-like association list: an existing key keeps its
position, a new key is appended. -/
def upsert (m : List (String × α)) (k : String) (v : α) : List (String × α) :=
  match m with
  | [] => [(k, v)]
  | (k2, w) :: rest =>
    if k2 = k then (k2, v) :: rest else (k2, w) :: upsert rest k v

/-- Embeds the JS object lookup `m[k]`, `undefined` becoming `none`. -/
def lookupKV (m : List (String × α)) (k : String) : Option α :=
  match m with
  | [] => none
  | (k2, v) :: rest => if k2 = k then some v else lookupKV rest k

/-- Embeds the JS `delete m[k]` on an object with unique keys. -/
def removeKey (m : List (String × α)) (k : String) : List (String × α) :=
  match m with
  | [] => []
  | (k2, w) :: rest => if k2 = k then rest else (k2, w) :: removeKey rest k

/-- Embeds `nodeChildrenAsMap(node)`: the children of `node` keyed by outlet
name (later duplicates overwrite in place), empty when `node` is null. -/
def nodeChildrenAsMap : Option TreeNode → List (String × TreeNode)
  | none => []
  | some n => n.children.foldl (fun m c => upsert m c.value.outlet c) []

namespace PreActivation

/-! ## Guard-phase tree diff (`PreActivation.traverse*`, `deactivate*`)

The `this.checks.push(...)` mutation is embedded by returning the list of
checks each call records, in push order; a JS `TypeError` from dereferencing
a null collaborator is embedded as `Except.error`. -/

mutual

/-- Embeds `PreActivation.deactivateOutletAndItChildren(route, outlet)`:
when the outlet exists and is activated, first record the deactivations of
its whole nested registry, then a `CanDeactivate` check for this outlet. -/
def deactivateOutletAndItChildren (route : ActivatedRouteSnapshot)
    (outlet : Option RouterOutlet) : List Check :=
  match outlet with
  | none => []
  | some o =>
    if o.isActivated then
      deactivateOutletMap o.outletMap ++ [Check.canDeactivate o.component route]
    else []
termination_by (sizeOf outlet, 1)
decreasing_by
  apply Prod.Lex.left
  have := RouterOutlet.sizeOf_outletMap o
  simp
  omega

/-- Embeds `PreActivation.deactivateOutletMap(outletMap)`: every activated
outlet of the registry is deactivated together with its children, in
registry order, each via `deactivateOutletAndItChildren(v.activatedRoute
.snapshot, v)`. -/
def deactivateOutletMap (outletMap : RouterOutletMap) : List Check :=
  match outletMap with
  | [] => []
  | (_, v) :: rest =>
    (if v.isActivated then deactivateOutletAndItChildren v.snapshot (some v)
     else []) ++ deactivateOutletMap rest
termination_by (sizeOf outletMap, 0)
decreasing_by
  all_goals apply Prod.Lex.left
  all_goals try simp
  all_goals omega

end

/-- Embeds the trailing `forEach` of `traverseChildRoutes` (lines 455-457):
each previous child with no future counterpart is deactivated via
`deactivateOutletAndItChildren(v, outletMap._outlets[k])`, in map order.
When `outletMap` is null the source faults reading `_outlets`.  The source
passes the previous child `TreeNode` itself where a snapshot is expected (an
untyped slip); the embedding records the node's snapshot value. -/
def leftoverDeactivations (prevChildren : List (String × TreeNode))
    (outletMap : Option RouterOutletMap) : Except String (List Check) :=
  match prevChildren with
  | [] => Except.ok []
  | (k, v) :: rest =>
    match outletMap with
    | none => Except.error "TypeError: cannot read _outlets of null"
    | some m => do
      let tail ← leftoverDeactivations rest (some m)
      Except.ok (deactivateOutletAndItChildren v.value (lookupKV m k) ++ tail)

mutual

/-- Embeds `PreActivation.traverseChildRoutes(futureNode, currNode,
outletMap, futurePath)`. -/
def traverseChildRoutes (futureNode : TreeNode) (currNode : Option TreeNode)
    (outletMap : Option RouterOutletMap)
    (futurePath : List ActivatedRouteSnapshot) : Except String (List Check) :=
  traverseChildList futureNode.children (nodeChildrenAsMap currNode)
    outletMap futurePath
termination_by (sizeOf futureNode, 1)
decreasing_by
  apply Prod.Lex.left
  exact TreeNode.sizeOf_children futureNode

/-- Embeds the `futureNode.children.forEach` loop of `traverseChildRoutes`
followed by the leftover deactivations: each future child is traversed
against the previous child registered at its outlet name (which is then
deleted from the map), then the remaining previous children are
deactivated. -/
def traverseChildList (cs : List TreeNode)
    (prevChildren : List (String × TreeNode))
    (outletMap : Option RouterOutletMap)
    (futurePath : List ActivatedRouteSnapshot) : Except String (List Check) :=
  match cs with
  | [] => leftoverDeactivations prevChildren outletMap
  | c :: rest => do
    let checks1 ← traverseRoutes c (lookupKV prevChildren c.value.outlet)
      outletMap (futurePath ++ [c.value])
    let checks2 ← traverseChildList rest
      (removeKey prevChildren c.value.outlet) outletMap futurePath
    Except.ok (checks1 ++ checks2)
termination_by (sizeOf cs, 0)
decreasing_by
  all_goals apply Prod.Lex.left
  all_goals try simp
  all_goals omega

/-- Embeds `PreActivation.traverseRoutes(futureNode, currNode,
parentOutletMap, futurePath)`.  The outlet for the slot is
`parentOutletMap._outlets[future.outlet]` when the parent map exists, null
otherwise.  The reuse test `future._routeConfig === curr._routeConfig` is
config identity (structural equality of entries carrying an identity token);
note null === null holds.  On the reuse-with-changed-params branch the source
reads `outlet.component` without a null guard, so a missing outlet faults. -/
def traverseRoutes (futureNode : TreeNode) (currNode : Option TreeNode)
    (parentOutletMap : Option RouterOutletMap)
    (futurePath : List ActivatedRouteSnapshot) : Except String (List Check) :=
  let future := futureNode.value
  let outlet : Option RouterOutlet :=
    match parentOutletMap with
    | some m => lookupKV m future.outlet
    | none => none
  match currNode with
  | some cn =>
    if future.routeConfig = cn.value.routeConfig then do
      -- reusing the node (lines 467-481)
      let own ←
        if shallowEqual future.params cn.value.params then
          Except.ok ([] : List Check)
        else
          match outlet with
          | some o =>
            Except.ok [Check.canDeactivate o.component cn.value,
                       Check.canActivate futurePath]
          | none => Except.error "TypeError: cannot read component of null"
      let rest ←
        if future.component.isSome then
          traverseChildRoutes futureNode (some cn)
            (outlet.map RouterOutlet.outletMap) futurePath
        else
          traverseChildRoutes futureNode (some cn) parentOutletMap futurePath
      Except.ok (own ++ rest)
    else do
      -- not reusable and a previous node exists (lines 483-492)
      let deact ←
        if cn.value.component.isSome then
          Except.ok (deactivateOutletAndItChildren cn.value outlet)
        else
          match parentOutletMap with
          | some m => Except.ok (deactivateOutletMap m)
          | none => Except.error "TypeError: cannot read _outlets of null"
      let rest ←
        if future.component.isSome then
          traverseChildRoutes futureNode none
            (outlet.map RouterOutlet.outletMap) futurePath
        else
          traverseChildRoutes futureNode none parentOutletMap futurePath
      Except.ok (deact ++ Check.canActivate futurePath :: rest)
  | none => do
    -- no previous node (lines 494-502)
    let rest ←
      if future.component.isSome then
        traverseChildRoutes futureNode none
          (outlet.map RouterOutlet.outletMap) futurePath
      else
        traverseChildRoutes futureNode none parentOutletMap futurePath
    Except.ok (Check.canActivate futurePath :: rest)
termination_by (sizeOf futureNode, 2)
decreasing_by
  all_goals exact Prod.Lex.right _ (by omega)

end

/-- Embeds `PreActivation.traverse(parentOutletMap)` applied to the future
root and the current root: dive into the child routes with the initial
future path `[futureRoot.value]`. -/
def traverse (futureRoot : TreeNode) (currRoot : Option TreeNode)
    (parentOutletMap : RouterOutletMap) : Except String (List Check) :=
  traverseChildRoutes futureRoot currRoot (some parentOutletMap)
    [futureRoot.value]

end PreActivation

/-- Embeds the live `ActivatedRoute` as the commit phase sees it: the source
compares live nodes by object identity (`future === curr`), embedded as
structural equality of records carrying an identity token `oid`. -/
structure ActivatedRoute where
  oid : Nat
  outlet : String
  component : Option ComponentId
deriving DecidableEq, Repr

/-- Embeds `TreeNode<ActivatedRoute>`. -/
inductive TreeNodeA where
  | mk (value : ActivatedRoute) (children : List TreeNodeA)

def TreeNodeA.value : TreeNodeA → ActivatedRoute
  | .mk v _ => v

def TreeNodeA.children : TreeNodeA → List TreeNodeA
  | .mk _ cs => cs

theorem TreeNodeA.sizeOf_childrenA (n : TreeNodeA) :
    sizeOf n.children < sizeOf n := by
  cases n with
  | mk v cs => simp [TreeNodeA.children]

/-- Embeds `nodeChildrenAsMap(node)` on live trees. -/
def nodeChildrenAsMapA : Option TreeNodeA → List (String × TreeNodeA)
  | none => []
  | some n => n.children.foldl (fun m c => upsert m c.value.outlet c) []

/-- Operations the commit phase performs, in program order:
`advanceActivatedRoute(route)` pushes the new snapshot into the observable
cell; `activateOutlet` is `outlet.activate(...)` mounting the component at
the slot; `deactivateOutlet` is `outlet.deactivate()` unmounting, labelled
with the outlet's component and current snapshot. -/
inductive RAction where
  | advanceActivatedRoute (route : ActivatedRoute)
  | activateOutlet (slot : String) (route : ActivatedRoute)
  | deactivateOutlet (component : Option ComponentId)
      (snapshot : ActivatedRouteSnapshot)
deriving DecidableEq, Repr

/-- Embeds `getOutlet(outletMap, route)`: the outlet registered at the route
slot name, or a thrown configuration error when the slot is missing
(`PRIMARY_OUTLET` is the name "primary" in `shared.ts`, outside these
sources; the thrown messages name the missing slot). -/
def getOutlet (outletMap : RouterOutletMap) (route : ActivatedRoute) :
    Except String RouterOutlet :=
  match lookupKV outletMap route.outlet with
  | some o => Except.ok o
  | none =>
    if route.outlet = "primary" then
      Except.error "Cannot find primary outlet"
    else Except.error "Cannot find the outlet"

namespace ActivateRoutes

mutual

/-- Embeds `ActivateRoutes.deactivateOutletAndItChildren(outlet)`: when the
outlet is present and activated, tear down its nested registry first, then
`outlet.deactivate()`. -/
def deactivateOutletAndItChildren (outlet : Option RouterOutlet) : List RAction :=
  match outlet with
  | none => []
  | some o =>
    if o.isActivated then
      deactivateOutletMap o.outletMap ++
        [RAction.deactivateOutlet o.component o.snapshot]
    else []
termination_by (sizeOf outlet, 1)
decreasing_by
  apply Prod.Lex.left
  have := RouterOutlet.sizeOf_outletMap o
  simp
  omega

/-- Embeds `ActivateRoutes.deactivateOutletMap(outletMap)`: every outlet of
the registry, in registry order. -/
def deactivateOutletMap (outletMap : RouterOutletMap) : List RAction :=
  match outletMap with
  | [] => []
  | (_, v) :: rest =>
    deactivateOutletAndItChildren (some v) ++ deactivateOutletMap rest
termination_by (sizeOf outletMap, 0)
decreasing_by
  all_goals apply Prod.Lex.left
  all_goals try simp
  all_goals omega

end

/-- Embeds the trailing `forEach` of `activateChildRoutes` (lines 632-634):
each previous child with no future counterpart has its outlet deactivated,
in map order. -/
def leftoverDeactivations (prevChildren : List (String × TreeNodeA))
    (outletMap : RouterOutletMap) : List RAction :=
  match prevChildren with
  | [] => []
  | (k, _) :: rest =>
    deactivateOutletAndItChildren (lookupKV outletMap k) ++
      leftoverDeactivations rest outletMap

mutual

/-- Embeds `ActivateRoutes.activateChildRoutes(futureNode, currNode,
outletMap)`. -/
def activateChildRoutes (futureNode : TreeNodeA) (currNode : Option TreeNodeA)
    (outletMap : RouterOutletMap) : Except String (List RAction) :=
  activateChildList futureNode.children (nodeChildrenAsMapA currNode) outletMap
termination_by (sizeOf futureNode, 1)
decreasing_by
  apply Prod.Lex.left
  exact TreeNodeA.sizeOf_childrenA futureNode

/-- Embeds the `futureNode.children.forEach` loop of `activateChildRoutes`
followed by the leftover deactivations. -/
def activateChildList (cs : List TreeNodeA)
    (prevChildren : List (String × TreeNodeA))
    (outletMap : RouterOutletMap) : Except String (List RAction) :=
  match cs with
  | [] => Except.ok (leftoverDeactivations prevChildren outletMap)
  | c :: rest => do
    let acts1 ← activateRoutes c (lookupKV prevChildren c.value.outlet)
      outletMap
    let acts2 ← activateChildList rest
      (removeKey prevChildren c.value.outlet) outletMap
    Except.ok (acts1 ++ acts2)
termination_by (sizeOf cs, 0)
decreasing_by
  all_goals apply Prod.Lex.left
  all_goals try simp
  all_goals omega

/-- Embeds `ActivateRoutes.activateRoutes(futureNode, currNode,
parentOutletMap)`.  A reused node (`future === curr`) is only advanced; a
new node is advanced and, when it has a component, mounted into its outlet
after a fresh nested registry is created (the mounted subtree's own outlet
directives register into the fresh registry dynamically, an external
collaborator effect, so the embedding recurses into the empty registry); a
replaced previous node is deactivated first, the whole parent registry when
it was componentless.  Thrown configuration errors discard the trace of the
operations already performed. -/
def activateRoutes (futureNode : TreeNodeA) (currNode : Option TreeNodeA)
    (parentOutletMap : RouterOutletMap) : Except String (List RAction) :=
  let future := futureNode.value
  match currNode with
  | some cn =>
    if future = cn.value then
      -- reusing the node (lines 644-656): advance the route, recurse
      if future.component.isSome then do
        let outlet ← getOutlet parentOutletMap futureNode.value
        let rest ← activateChildRoutes futureNode (some cn) outlet.outletMap
        Except.ok (RAction.advanceActivatedRoute future :: rest)
      else do
        let rest ← activateChildRoutes futureNode (some cn) parentOutletMap
        Except.ok (RAction.advanceActivatedRoute future :: rest)
    else do
      -- lines 658-667: deactivate the previous occupant
      let deact ←
        if cn.value.component.isSome then do
          let outlet ← getOutlet parentOutletMap futureNode.value
          Except.ok (deactivateOutletAndItChildren (some outlet))
        else
          Except.ok (deactivateOutletMap parentOutletMap)
      -- lines 670-683: advance and mount the new node
      if future.component.isSome then do
        let _outlet ← getOutlet parentOutletMap futureNode.value
        let rest ← activateChildRoutes futureNode none []
        Except.ok (deact ++ RAction.advanceActivatedRoute future ::
          RAction.activateOutlet future.outlet future :: rest)
      else do
        let rest ← activateChildRoutes futureNode none parentOutletMap
        Except.ok (deact ++ RAction.advanceActivatedRoute future :: rest)
  | none =>
    -- no previous occupant: lines 670-683 only
    if future.component.isSome then do
      let _outlet ← getOutlet parentOutletMap futureNode.value
      let rest ← activateChildRoutes futureNode none []
      Except.ok (RAction.advanceActivatedRoute future ::
        RAction.activateOutlet future.outlet future :: rest)
    else do
      let rest ← activateChildRoutes futureNode none parentOutletMap
      Except.ok (RAction.advanceActivatedRoute future :: rest)
termination_by (sizeOf futureNode, 2)
decreasing_by
  all_goals exact Prod.Lex.right _ (by omega)

end

end ActivateRoutes

namespace Guards

/-! ## Guard combination lemmas -/

theorem checkGuards_eq_all (g : GuardEnv) (checks : List Check) :
    checkGuards g checks = checks.all (evalCheck g) := by
  cases checks with
  | nil => simp [checkGuards]
  | cons ch rest => simp [checkGuards]

theorem all_flatten_map {α β : Type} (l : List α) (f : α → List β) (p : β → Bool) :
    ((l.map f).flatten).all p = l.all (fun x => (f x).all p) := by
  induction l with
  | nil => rfl
  | cons x rest ih => simp [ih]

theorem all_map_general {α β : Type} (l : List α) (f : α → β) (p : β → Bool) :
    (l.map f).all p = l.all (fun x => p (f x)) := by
  induction l with
  | nil => rfl
  | cons x rest ih => simp [ih]

theorem evalCheck_eq_preds (g : GuardEnv) (ch : Check) (h : ch.wfb = true) :
    evalCheck g ch = (predsOfCheck ch).all (evalPred g) := by
  cases ch with
  | canDeactivate component route =>
    simp only [evalCheck, predsOfCheck, runCanDeactivate]
    cases route.routeConfig with
    | none => rfl
    | some cfg =>
      by_cases he : cfg.canDeactivate.isEmpty
      · rw [List.isEmpty_iff] at he
        simp [he]
      · simp [he, all_map_general, evalPred]
  | canActivate path =>
    have hne : path ≠ [] := by
      simp only [Check.wfb, Bool.not_eq_true'] at h
      exact List.isEmpty_eq_false.mp h
    cases hl : path.getLast? with
    | none =>
      rw [List.getLast?_eq_none_iff] at hl
      exact absurd hl hne
    | some route =>
      simp only [evalCheck, predsOfCheck, hl, List.all_append]
      congr 1
      · -- runCanActivate part
        simp only [runCanActivate]
        cases route.routeConfig with
        | none => rfl
        | some cfg =>
          by_cases he : cfg.canActivate.isEmpty
          · rw [List.isEmpty_iff] at he
            simp [he]
          · simp [he, all_map_general, evalPred]
      · -- runCanActivateChild part
        simp [runCanActivateChild, hl, all_flatten_map, all_map_general,
          evalPred]

theorem checkGuards_true_iff_preds (g : GuardEnv) (checks : List Check)
    (hwf : ∀ ch ∈ checks, ch.wfb = true) :
    checkGuards g checks = true ↔
      ∀ p ∈ predsOfChecks checks, evalPred g p = true := by
  rw [checkGuards_eq_all, List.all_eq_true]
  constructor
  · intro h p hp
    rw [predsOfChecks, List.mem_flatten] at hp
    obtain ⟨l, hl, hpl⟩ := hp
    rw [List.mem_map] at hl
    obtain ⟨ch, hch, rfl⟩ := hl
    have hc := h ch hch
    rw [evalCheck_eq_preds g ch (hwf ch hch), List.all_eq_true] at hc
    exact hc p hpl
  · intro h ch hch
    rw [evalCheck_eq_preds g ch (hwf ch hch), List.all_eq_true]
    intro p hp
    apply h
    rw [predsOfChecks, List.mem_flatten]
    exact ⟨predsOfCheck ch, List.mem_map_of_mem _ hch, hp⟩

/-- C4: `checkGuards` is true exactly when every predicate of every recorded
check evaluates to true; a single non-true predicate result anywhere makes
the overall result false whatever every predicate after it evaluates to (the
quantification over the guard environment `g2` leaves the later predicate
results unconstrained); and with zero checks the result is true. -/
theorem checkGuards_and_semantics (g : GuardEnv) (checks : List Check)
    (hwf : ∀ ch ∈ checks, ch.wfb = true) :
    checkGuards g ([] : List Check) = true ∧
    (checkGuards g checks = true ↔
      ∀ p ∈ predsOfChecks checks, evalPred g p = true) ∧
    (∀ (g2 : GuardEnv) (pre : List Pred) (x : Pred) (post : List Pred),
      predsOfChecks checks = pre ++ x :: post → evalPred g2 x = false →
      checkGuards g2 checks = false) := by
  refine ⟨rfl, checkGuards_true_iff_preds g checks hwf, ?_⟩
  intro g2 pre x post heq hx
  cases h2 : checkGuards g2 checks with
  | false => rfl
  | true =>
    rw [checkGuards_true_iff_preds g2 checks hwf] at h2
    have hmem : x ∈ predsOfChecks checks := by
      rw [heq]
      exact List.mem_append_right _ (List.mem_cons_self _ _)
    rw [h2 x hmem] at hx
    exact absurd hx (by simp)

/-- Concrete guard environment evaluating every invocation to true except
guard token 3, used by witnesses. -/
def gWitness : GuardEnv where
  canActivateResult := fun c _ => c ≠ 3
  canActivateChildResult := fun c _ => c ≠ 3
  canDeactivateResult := fun c _ _ => c ≠ 3

/-- Concrete snapshot used by witnesses: config with one `canActivate`
guard (token 1) and one `canDeactivate` guard (token 2). -/
def snapWitness : ActivatedRouteSnapshot where
  routeConfig := some { cfgId := 0, canActivate := [1], canActivateChild := [], canDeactivate := [2] }
  params := [("id", "33")]
  outlet := "primary"
  component := some 5

theorem checkGuards_and_semantics_witness :
    checkGuards gWitness ([] : List Check) = true ∧
    (checkGuards gWitness [Check.canDeactivate (some 5) snapWitness] = true ↔
      ∀ p ∈ predsOfChecks [Check.canDeactivate (some 5) snapWitness],
        evalPred gWitness p = true) ∧
    (∀ (g2 : GuardEnv) (pre : List Pred) (x : Pred) (post : List Pred),
      predsOfChecks [Check.canDeactivate (some 5) snapWitness] =
        pre ++ x :: post → evalPred g2 x = false →
      checkGuards g2 [Check.canDeactivate (some 5) snapWitness] = false) :=
  checkGuards_and_semantics gWitness
    [Check.canDeactivate (some 5) snapWitness] (by decide)

end Guards

namespace Guards

/-- C8: for an activate-check over the path `init ++ [node]` (root-to-node,
`init` being the strict ancestors), the evaluation conjoins the node's own
`canActivate` predicates with the `canActivateChild` predicate lists of the
strict ancestors taken in reversed (nearest-ancestor-first) order, each
ancestor contributing its own list; and the flattened predicate-invocation
list records exactly those guards in that order, every ancestor guard being
invoked against the node. -/
theorem activate_check_guard_set (g : GuardEnv)
    (init : List ActivatedRouteSnapshot) (node : ActivatedRouteSnapshot) :
    evalCheck g (.canActivate (init ++ [node])) =
      (runCanActivate g node &&
        (init.reverse.filterMap extractCanActivateChild).all
          (fun d => d.2.all (fun c => g.canActivateChildResult c node))) ∧
    predsOfCheck (.canActivate (init ++ [node])) =
      (match node.routeConfig with
       | none => []
       | some cfg => cfg.canActivate.map (fun c => Pred.act c node)) ++
      ((init.reverse.filterMap extractCanActivateChild).map
        (fun d => d.2.map (fun c => Pred.child c node))).flatten := by
  have hlast : (init ++ [node]).getLast? = some node := List.getLast?_concat _
  have hlen : (init ++ [node]).length - 1 = init.length := by simp
  have htake : (init ++ [node]).take ((init ++ [node]).length - 1) = init := by
    rw [hlen]
    exact List.take_left init [node]
  constructor
  · simp only [evalCheck, hlast, runCanActivateChild, htake]
  · simp only [predsOfCheck, hlast, htake]

end Guards

namespace Router

/-! ## Navigation sequencer theorems -/

/-- Concrete url serializer used by concrete evaluations: the decimal
rendering of the url identity. -/
def serW : UrlTree → String := fun u => toString u

/-- Concrete router state used by concrete evaluations. -/
def selfW : RouterM := { navigationId := 1, currentUrlTree := 10, currentRouterState := 20 }

/-- C1: evaluation of a guard-denied navigation (id current at both checks,
`checkGuards` produced false).  The promise resolves to false, the
authoritative pair is untouched, a `NavigationCancel` carrying the attempted
url (serialized 5, not the current 10) fires, and no location call is made —
but the unconditional success handler of the `forEach` promise then also
emits `NavigationEnd` for this rejected navigation, contradicting both the
claim and the source doc comment that `NavigationEnd` is triggered when a
navigation ends successfully. -/
theorem guard_denied_navigation_eval :
    (runNavigate selfW serW "p" 5 false 1 1 (.completed 7 3 99 false none)).result
        = .resolved false ∧
    (runNavigate selfW serW "p" 5 false 1 1 (.completed 7 3 99 false none)).final.currentUrlTree
        = selfW.currentUrlTree ∧
    (runNavigate selfW serW "p" 5 false 1 1 (.completed 7 3 99 false none)).final.currentRouterState
        = selfW.currentRouterState ∧
    (runNavigate selfW serW "p" 5 false 1 1 (.completed 7 3 99 false none)).events
        = [.routesRecognized 1 "5" "7" 3, .navigationCancel 1 "5",
           .navigationEnd 1 "5" "7"] ∧
    (runNavigate selfW serW "p" 5 false 1 1 (.completed 7 3 99 false none)).locOps
        = [] := by
  decide

/-- C2 as stated is false: this navigation is superseded (the counter
advanced to 2 before it finished), yet because a pipeline stage rejected
before the commit-time staleness check, it rejects with `NavigationError`
and never emits `NavigationCancel` nor resolves to false. -/
theorem superseded_error_not_cancelled :
    (runNavigate selfW serW "p" 5 false 1 2 (.postRecognizeError 7 3 42)).result
        = .rejected 42 ∧
    (runNavigate selfW serW "p" 5 false 1 2 (.postRecognizeError 7 3 42)).events
        = [.routesRecognized 1 "5" "7" 3, .navigationError 1 "5" 42] := by
  decide

/-- C2 amended: only a navigation whose captured id equals the counter at
pipeline entry and again immediately before commit may write the
authoritative pair; a navigation detected stale at either check resolves
false, emits `NavigationCancel` and leaves the pair unchanged; ids are
allocated strictly increasing by `scheduleNavigation`.  (A superseded
navigation whose pipeline stage rejects surfaces as `NavigationError`
instead — see the counterexample.) -/
theorem last_issued_commit_discipline (self : RouterM) (ser : UrlTree → String)
    (locPath : String) (url : UrlTree) (pps : Bool) (id navIdAtCommit : Nat)
    (outcome : PipelineOutcome) :
    ((id ≠ self.navigationId ∨ id ≠ navIdAtCommit) →
      (runNavigate self ser locPath url pps id navIdAtCommit outcome).final.currentUrlTree
          = self.currentUrlTree ∧
      (runNavigate self ser locPath url pps id navIdAtCommit outcome).final.currentRouterState
          = self.currentRouterState) ∧
    (id ≠ self.navigationId →
      (runNavigate self ser locPath url pps id navIdAtCommit outcome).result
          = .resolved false ∧
      REvent.navigationCancel id (ser url)
          ∈ (runNavigate self ser locPath url pps id navIdAtCommit outcome).events) ∧
    (∀ u s st sa ae, outcome = .completed u s st sa ae → id ≠ navIdAtCommit →
      (runNavigate self ser locPath url pps id navIdAtCommit outcome).result
          = .resolved false ∧
      REvent.navigationCancel id (ser url)
          ∈ (runNavigate self ser locPath url pps id navIdAtCommit outcome).events) ∧
    ((scheduleNavigation self ser url).1.navigationId = self.navigationId + 1 ∧
      (scheduleNavigation self ser url).2.1 = self.navigationId + 1) := by
  refine ⟨?_, ?_, ?_, rfl, rfl⟩
  · intro h
    by_cases h1 : id = self.navigationId
    · rcases h with h | h
      · exact absurd h1 h
      · cases outcome with
        | preRecognizeError e => simp [runNavigate, h1]
        | postRecognizeError u s e => simp [runNavigate, h1]
        | completed u s st sa ae =>
          cases sa with
          | false => simp [runNavigate, h1]
          | true =>
            have hc2 : self.navigationId ≠ navIdAtCommit := by
              rw [← h1]; exact h
            simp [runNavigate, h1, hc2]
    · simp [runNavigate, h1]
  · intro h1
    simp [runNavigate, h1]
  · intro u s st sa ae ho hc
    subst ho
    by_cases h1 : id = self.navigationId
    · cases sa with
      | false => simp [runNavigate, h1]
      | true =>
        have hc2 : self.navigationId ≠ navIdAtCommit := by
          rw [← h1]; exact hc
        simp [runNavigate, h1, hc2]
    · simp [runNavigate, h1]

theorem last_issued_commit_discipline_witness :
    (runNavigate selfW serW "p" 5 false 3 3 (.completed 7 3 99 true none)).result
        = .resolved false ∧
    REvent.navigationCancel 3 "5"
        ∈ (runNavigate selfW serW "p" 5 false 3 3 (.completed 7 3 99 true none)).events ∧
    (scheduleNavigation selfW serW 5).1.navigationId = 2 :=
  have h := last_issued_commit_discipline selfW serW "p" 5 false 3 3
    (.completed 7 3 99 true none)
  ⟨(h.2.1 (by decide)).1, (h.2.1 (by decide)).2, h.2.2.2.1⟩

end Router

namespace Router

/-- C3 as stated is false: a navigation detected stale at pipeline entry —
a canceled navigation (it resolves false) — does perform a location update,
`location.go` with the serialized current url tree (line 303). -/
theorem stale_at_entry_location_go :
    (runNavigate { navigationId := 2, currentUrlTree := 10, currentRouterState := 20 }
        serW "p" 5 false 1 2 (.completed 7 3 99 true none)).locOps
      = [.go "10"] ∧
    (runNavigate { navigationId := 2, currentUrlTree := 10, currentRouterState := 20 }
        serW "p" 5 false 1 2 (.completed 7 3 99 true none)).result
      = .resolved false := by
  decide

/-- C3 amended: on a successful commit with push-state not suppressed the
location collaborator gets exactly one call, `replaceState` when the
serialized applied url equals its current path and `go` otherwise; a
successful commit of a pop-triggered navigation (`preventPushState`), a
guard-rejected navigation, a navigation stale at the commit check, and a
failed navigation perform no location call; but a navigation found stale at
pipeline entry performs `location.go` with the serialized current url
tree. -/
theorem location_sync_discipline (self : RouterM) (ser : UrlTree → String)
    (locPath : String) (url : UrlTree) (pps : Bool) (id navIdAtCommit : Nat)
    (outcome : PipelineOutcome) :
    (∀ u s st, outcome = .completed u s st true none → id = self.navigationId →
      id = navIdAtCommit → pps = false →
      (runNavigate self ser locPath url pps id navIdAtCommit outcome).locOps
        = (if locPath = ser u then [LocationOp.replaceState (ser u)]
           else [LocationOp.go (ser u)])) ∧
    (∀ u s st, outcome = .completed u s st true none → id = self.navigationId →
      id = navIdAtCommit → pps = true →
      (runNavigate self ser locPath url pps id navIdAtCommit outcome).locOps = []) ∧
    (∀ u s st sa ae, outcome = .completed u s st sa ae →
      (sa = false ∨ id ≠ navIdAtCommit) → id = self.navigationId →
      (runNavigate self ser locPath url pps id navIdAtCommit outcome).locOps = []) ∧
    (∀ e, outcome = .preRecognizeError e → id = self.navigationId →
      (runNavigate self ser locPath url pps id navIdAtCommit outcome).locOps = []) ∧
    (∀ u s e, outcome = .postRecognizeError u s e → id = self.navigationId →
      (runNavigate self ser locPath url pps id navIdAtCommit outcome).locOps = []) ∧
    (∀ u s st e, outcome = .completed u s st true (some e) → id = self.navigationId →
      id = navIdAtCommit →
      (runNavigate self ser locPath url pps id navIdAtCommit outcome).locOps = []) ∧
    (id ≠ self.navigationId →
      (runNavigate self ser locPath url pps id navIdAtCommit outcome).locOps
        = [.go (ser self.currentUrlTree)]) := by
  refine ⟨?_, ?_, ?_, ?_, ?_, ?_, ?_⟩
  · intro u s st ho h1 hc hp
    subst ho; subst hp
    simp [runNavigate, h1, ← hc]
  · intro u s st ho h1 hc hp
    subst ho; subst hp
    simp [runNavigate, h1, ← hc]
  · intro u s st sa ae ho hstale h1
    subst ho
    rcases hstale with hsa | hcne
    · subst hsa
      simp [runNavigate, h1]
    · have hc2 : self.navigationId ≠ navIdAtCommit := by
        rw [← h1]; exact hcne
      cases sa with
      | false => simp [runNavigate, h1]
      | true => simp [runNavigate, h1, hc2]
  · intro e ho h1
    subst ho
    simp [runNavigate, h1]
  · intro u s e ho h1
    subst ho
    simp [runNavigate, h1]
  · intro u s st e ho h1 hc
    subst ho
    simp [runNavigate, h1, ← hc]
  · intro h1
    simp [runNavigate, h1]

theorem location_sync_discipline_witness :
    (runNavigate selfW serW "7" 5 false 1 1 (.completed 7 3 99 true none)).locOps
      = [LocationOp.replaceState "7"] ∧
    (runNavigate selfW serW "x" 5 false 1 1 (.completed 7 3 99 true none)).locOps
      = [LocationOp.go "7"] :=
  have h1 := (location_sync_discipline selfW serW "7" 5 false 1 1
    (.completed 7 3 99 true none)).1 7 3 99 rfl rfl rfl rfl
  have h2 := (location_sync_discipline selfW serW "x" 5 false 1 1
    (.completed 7 3 99 true none)).1 7 3 99 rfl rfl rfl rfl
  ⟨by rw [h1]; decide, by rw [h2]; decide⟩

/-- C9: whenever a pipeline stage rejects — before recognition, after
recognition, or during the synchronous activation after the authoritative
pair was already swapped — the final authoritative pair equals the pair
captured at pipeline start (both components together), a `NavigationError`
carrying the cause is among the emitted events, and the returned promise
rejects with that cause. -/
theorem pipeline_error_rollback (self : RouterM) (ser : UrlTree → String)
    (locPath : String) (url : UrlTree) (pps : Bool) (id navIdAtCommit : Nat)
    (outcome : PipelineOutcome) :
    (∀ e, outcome = .preRecognizeError e → id = self.navigationId →
      (runNavigate self ser locPath url pps id navIdAtCommit outcome).final.currentUrlTree
          = self.currentUrlTree ∧
      (runNavigate self ser locPath url pps id navIdAtCommit outcome).final.currentRouterState
          = self.currentRouterState ∧
      REvent.navigationError id (ser url) e
          ∈ (runNavigate self ser locPath url pps id navIdAtCommit outcome).events ∧
      (runNavigate self ser locPath url pps id navIdAtCommit outcome).result
          = .rejected e) ∧
    (∀ u s e, outcome = .postRecognizeError u s e → id = self.navigationId →
      (runNavigate self ser locPath url pps id navIdAtCommit outcome).final.currentUrlTree
          = self.currentUrlTree ∧
      (runNavigate self ser locPath url pps id navIdAtCommit outcome).final.currentRouterState
          = self.currentRouterState ∧
      REvent.navigationError id (ser url) e
          ∈ (runNavigate self ser locPath url pps id navIdAtCommit outcome).events ∧
      (runNavigate self ser locPath url pps id navIdAtCommit outcome).result
          = .rejected e) ∧
    (∀ u s st e, outcome = .completed u s st true (some e) →
      id = self.navigationId → id = navIdAtCommit →
      (runNavigate self ser locPath url pps id navIdAtCommit outcome).final.currentUrlTree
          = self.currentUrlTree ∧
      (runNavigate self ser locPath url pps id navIdAtCommit outcome).final.currentRouterState
          = self.currentRouterState ∧
      REvent.navigationError id (ser url) e
          ∈ (runNavigate self ser locPath url pps id navIdAtCommit outcome).events ∧
      (runNavigate self ser locPath url pps id navIdAtCommit outcome).result
          = .rejected e) := by
  refine ⟨?_, ?_, ?_⟩
  · intro e ho h1
    subst ho
    simp [runNavigate, h1]
  · intro u s e ho h1
    subst ho
    simp [runNavigate, h1]
  · intro u s st e ho h1 hc
    subst ho
    simp [runNavigate, h1, ← hc]

theorem pipeline_error_rollback_witness :
    (runNavigate selfW serW "p" 5 false 1 1 (.completed 7 3 99 true (some 42))).final.currentUrlTree
        = selfW.currentUrlTree ∧
    (runNavigate selfW serW "p" 5 false 1 1 (.completed 7 3 99 true (some 42))).final.currentRouterState
        = selfW.currentRouterState ∧
    REvent.navigationError 1 (serW 5) 42
        ∈ (runNavigate selfW serW "p" 5 false 1 1 (.completed 7 3 99 true (some 42))).events ∧
    (runNavigate selfW serW "p" 5 false 1 1 (.completed 7 3 99 true (some 42))).result
        = .rejected 42 :=
  (pipeline_error_rollback selfW serW "p" 5 false 1 1
    (.completed 7 3 99 true (some 42))).2.2 7 3 99 42 rfl rfl rfl

end Router

/-! ## Tree-diff theorems -/

deriving instance DecidableEq for Except

/-- Concrete route config shared by the old and new snapshots of a reused
node. -/
def cfgT : RouteConfig :=
  { cfgId := 1, canActivate := [], canActivateChild := [], canDeactivate := [] }

/-- Concrete previous snapshot (`user/11`-like, params id=11). -/
def snapOld : ActivatedRouteSnapshot :=
  { routeConfig := some cfgT, params := [("id", "11")], outlet := "primary",
    component := some 1 }

/-- Concrete next snapshot at the same slot with the identical config and
different params (id=22). -/
def snapNew : ActivatedRouteSnapshot :=
  { routeConfig := some cfgT, params := [("id", "22")], outlet := "primary",
    component := some 1 }

/-- C10: on the reused-config, changed-params branch, `outlet.component` is
read with no null or is-activated guard; with a parent outlet map lacking an
entry for the slot — and likewise with a null parent outlet map — the
traversal faults instead of recording a check. -/
theorem reused_node_missing_outlet_faults :
    PreActivation.traverseRoutes (.mk snapNew []) (some (.mk snapOld []))
        (some []) [snapNew]
      = Except.error "TypeError: cannot read component of null" ∧
    PreActivation.traverseRoutes (.mk snapNew []) (some (.mk snapOld []))
        none [snapNew]
      = Except.error "TypeError: cannot read component of null" := by
  constructor
  · rw [PreActivation.traverseRoutes.eq_def]
    decide
  · rw [PreActivation.traverseRoutes.eq_def]
    decide

/-- C6: a reused node (identical route config at the slot) whose parameters
differ records exactly a `CanDeactivate` check carrying the outlet component
and the old snapshot, immediately followed by a `CanActivate` check carrying
the new path from the root, in that order, before whatever the recursion
into the children records. -/
theorem reused_node_changed_params_checks (f cn : TreeNode)
    (m : RouterOutletMap) (o : RouterOutlet) (p : List ActivatedRouteSnapshot)
    (hcfg : f.value.routeConfig = cn.value.routeConfig)
    (hpar : shallowEqual f.value.params cn.value.params = false)
    (ho : lookupKV m f.value.outlet = some o) :
    PreActivation.traverseRoutes f (some cn) (some m) p =
      (PreActivation.traverseChildRoutes f (some cn)
          (if f.value.component.isSome then some o.outletMap else some m) p).map
        (fun rest => Check.canDeactivate o.component cn.value ::
          Check.canActivate p :: rest) := by
  rw [PreActivation.traverseRoutes.eq_def]
  simp only [ho, hcfg, hpar, eq_self_iff_true, if_true, Option.map_some,
    Bool.false_eq_true, if_false]
  by_cases hcomp : f.value.component.isSome
  · simp only [hcomp, if_true]
    cases hrest : PreActivation.traverseChildRoutes f (some cn) (some o.outletMap) p with
    | ok rest => simp [hrest, Except.map, Bind.bind, Except.bind]
    | error e => simp [hrest, Except.map, Bind.bind, Except.bind]
  · simp only [hcomp, Bool.false_eq_true, if_false]
    cases hrest : PreActivation.traverseChildRoutes f (some cn) (some m) p with
    | ok rest => simp [hrest, Except.map, Bind.bind, Except.bind]
    | error e => simp [hrest, Except.map, Bind.bind, Except.bind]

/-- Concrete activated outlet occupying slot "primary" with component 1 and
the old snapshot, with an empty nested registry. -/
def outletW : RouterOutlet := .mk true (some 1) snapOld []

theorem reused_node_changed_params_checks_witness :
    PreActivation.traverseRoutes (.mk snapNew []) (some (.mk snapOld []))
        (some [("primary", outletW)]) [snapNew] =
      Except.ok [Check.canDeactivate (some 1) snapOld,
        Check.canActivate [snapNew]] := by
  have h := reused_node_changed_params_checks (.mk snapNew []) (.mk snapOld [])
    [("primary", outletW)] outletW [snapNew] (by decide) (by decide) rfl
  rw [h, PreActivation.traverseChildRoutes.eq_def,
    PreActivation.traverseChildList.eq_def]
  decide

/-- Modelled from the spec: `createRouterState` (in `create_router_state.ts`,
outside these sources) reuses the live `ActivatedRoute` object whenever the
previous node at the slot matched the identical route config, so in the
commit phase such a node arrives as the same object and the source reuse
test `future === curr` holds; object identity is embedded as equality of the
live node values. -/
def reusedLiveNode (future curr : ActivatedRoute) : Prop := future = curr

/-- C5: a node whose previous counterpart at the same slot has the identical
route config and shallow-equal parameters contributes zero checks in the
guard-phase diff (the traversal result is exactly the recursion into the
children), and in the commit phase a reused live node contributes exactly
the advance of its observable cell (no mount and no unmount), both for a
componentless node and for a component-bearing node whose outlet is
registered. -/
theorem reused_unchanged_node_no_checks_no_remount
    (f cn : TreeNode) (m : RouterOutletMap) (p : List ActivatedRouteSnapshot)
    (fn cnA : TreeNodeA) (mA : RouterOutletMap) (o : RouterOutlet) :
    (f.value.routeConfig = cn.value.routeConfig →
      shallowEqual f.value.params cn.value.params = true →
      PreActivation.traverseRoutes f (some cn) (some m) p =
        PreActivation.traverseChildRoutes f (some cn)
          (if f.value.component.isSome then
            (lookupKV m f.value.outlet).map RouterOutlet.outletMap
           else some m) p) ∧
    (reusedLiveNode fn.value cnA.value → fn.value.component = none →
      ActivateRoutes.activateRoutes fn (some cnA) mA =
        (ActivateRoutes.activateChildRoutes fn (some cnA) mA).map
          (fun rest => RAction.advanceActivatedRoute fn.value :: rest)) ∧
    (reusedLiveNode fn.value cnA.value → fn.value.component.isSome = true →
      lookupKV mA fn.value.outlet = some o →
      ActivateRoutes.activateRoutes fn (some cnA) mA =
        (ActivateRoutes.activateChildRoutes fn (some cnA) o.outletMap).map
          (fun rest => RAction.advanceActivatedRoute fn.value :: rest)) := by
  refine ⟨?_, ?_, ?_⟩
  · intro hcfg hpar
    rw [PreActivation.traverseRoutes.eq_def]
    simp only [hcfg, hpar, eq_self_iff_true, if_true]
    by_cases hcomp : f.value.component.isSome
    · simp only [hcomp, if_true]
      cases hrest : PreActivation.traverseChildRoutes f (some cn)
          ((lookupKV m f.value.outlet).map RouterOutlet.outletMap) p with
      | ok rest => simp [hrest, Bind.bind, Except.bind]
      | error e => simp [hrest, Bind.bind, Except.bind]
    · simp only [hcomp, Bool.false_eq_true, if_false]
      cases hrest : PreActivation.traverseChildRoutes f (some cn) (some m) p with
      | ok rest => simp [hrest, Bind.bind, Except.bind]
      | error e => simp [hrest, Bind.bind, Except.bind]
  · intro hre hcomp
    rw [ActivateRoutes.activateRoutes.eq_def]
    simp only [reusedLiveNode] at hre
    have hcomp2 : cnA.value.component = none := hre ▸ hcomp
    simp only [hre, hcomp2, eq_self_iff_true, if_true, Option.isSome_none,
      Bool.false_eq_true, if_false]
    cases hrest : ActivateRoutes.activateChildRoutes fn (some cnA) mA with
    | ok rest => simp [hrest, Bind.bind, Except.bind, Except.map]
    | error e => simp [hrest, Bind.bind, Except.bind, Except.map]
  · intro hre hcomp ho
    rw [ActivateRoutes.activateRoutes.eq_def]
    simp only [reusedLiveNode] at hre
    have hcomp2 : cnA.value.component.isSome = true := hre ▸ hcomp
    have ho2 : lookupKV mA cnA.value.outlet = some o := hre ▸ ho
    simp only [hre, hcomp2, eq_self_iff_true, if_true, getOutlet, ho2]
    cases hrest : ActivateRoutes.activateChildRoutes fn (some cnA) o.outletMap with
    | ok rest => simp [hrest, Bind.bind, Except.bind, Except.map]
    | error e => simp [hrest, Bind.bind, Except.bind, Except.map]

/-- Concrete live route mounted at slot "primary" with component 1. -/
def routeA : ActivatedRoute := { oid := 7, outlet := "primary", component := some 1 }

theorem reused_unchanged_node_no_checks_no_remount_witness :
    PreActivation.traverseRoutes (.mk snapNew []) (some (.mk snapNew []))
        (some [("primary", outletW)]) [snapNew] = Except.ok [] ∧
    ActivateRoutes.activateRoutes (.mk routeA []) (some (.mk routeA []))
        [("primary", outletW)] =
      Except.ok [RAction.advanceActivatedRoute routeA] := by
  have h := reused_unchanged_node_no_checks_no_remount (.mk snapNew [])
    (.mk snapNew []) [("primary", outletW)] [snapNew]
    (.mk routeA []) (.mk routeA []) [("primary", outletW)] outletW
  constructor
  · rw [h.1 (by decide) (by decide), PreActivation.traverseChildRoutes.eq_def,
      PreActivation.traverseChildList.eq_def]
    decide
  · rw [h.2.2 rfl (by decide) rfl, ActivateRoutes.activateChildRoutes.eq_def,
      ActivateRoutes.activateChildList.eq_def]
    decide

/-! ## Deactivation scope and ordering lemmas -/

theorem preDeactivateOutlet_some (r : ActivatedRouteSnapshot) (o : RouterOutlet) :
    PreActivation.deactivateOutletAndItChildren r (some o) =
      if o.isActivated then
        PreActivation.deactivateOutletMap o.outletMap ++
          [Check.canDeactivate o.component r]
      else [] := by
  rw [PreActivation.deactivateOutletAndItChildren.eq_def]

theorem preDeactivateOutletMap_cons (k : String) (v : RouterOutlet)
    (rest : RouterOutletMap) :
    PreActivation.deactivateOutletMap ((k, v) :: rest) =
      (if v.isActivated then
        PreActivation.deactivateOutletAndItChildren v.snapshot (some v)
       else []) ++ PreActivation.deactivateOutletMap rest := by
  rw [PreActivation.deactivateOutletMap.eq_def]

theorem actDeactivateOutlet_some (o : RouterOutlet) :
    ActivateRoutes.deactivateOutletAndItChildren (some o) =
      if o.isActivated then
        ActivateRoutes.deactivateOutletMap o.outletMap ++
          [RAction.deactivateOutlet o.component o.snapshot]
      else [] := by
  rw [ActivateRoutes.deactivateOutletAndItChildren.eq_def]

/-- Ancestry relation on slot registries: `ActivatedIn w m` holds when `w` is
an activated outlet registered in `m`, or (recursively) an activated outlet
inside the nested registry of an activated outlet of `m`. -/
inductive ActivatedIn : RouterOutlet → RouterOutletMap → Prop where
  | here (k : String) (v : RouterOutlet) (m : RouterOutletMap) :
      (k, v) ∈ m → v.isActivated = true → ActivatedIn v m
  | deeper (k : String) (v w : RouterOutlet) (m : RouterOutletMap) :
      (k, v) ∈ m → v.isActivated = true → ActivatedIn w v.outletMap →
      ActivatedIn w m

theorem mem_preDeactivateOutletMap_of_entry
    (m : RouterOutletMap) (k : String) (v : RouterOutlet)
    (hmem : (k, v) ∈ m) (hact : v.isActivated = true)
    (c : Check)
    (hc : c ∈ PreActivation.deactivateOutletAndItChildren v.snapshot (some v)) :
    c ∈ PreActivation.deactivateOutletMap m := by
  induction m with
  | nil => exact absurd hmem (List.not_mem_nil _)
  | cons x rest ih =>
    obtain ⟨k2, v2⟩ := x
    rw [preDeactivateOutletMap_cons]
    rcases List.mem_cons.mp hmem with heq | htail
    · obtain ⟨hk, hv⟩ := Prod.mk.injEq .. ▸ heq
      subst hv
      exact List.mem_append_left _ (by simp [hact, hc])
    · exact List.mem_append_right _ (ih htail)

theorem activatedIn_deactivation_recorded (w : RouterOutlet)
    (m : RouterOutletMap) (h : ActivatedIn w m) :
    Check.canDeactivate w.component w.snapshot
      ∈ PreActivation.deactivateOutletMap m := by
  induction h with
  | here k v m hmem hact =>
    apply mem_preDeactivateOutletMap_of_entry m k v hmem hact
    rw [preDeactivateOutlet_some]
    simp [hact]
  | deeper k v w m hmem hact hin ih =>
    apply mem_preDeactivateOutletMap_of_entry m k v hmem hact
    rw [preDeactivateOutlet_some]
    simp only [hact, if_true]
    exact List.mem_append_left _ ih

/-- C7: when the previous node at a slot is not reusable and was
componentless, the guard-phase diff deactivates the entire parent slot
registry (every activated outlet of it, recursively, has its
`CanDeactivate` check recorded) rather than one slot, and both phases tear
down in post-order: the checks (respectively unmount operations) of an
activated outlet's nested registry come before the outlet's own check
(respectively its unmount); the commit phase likewise deactivates the whole
parent registry for a replaced componentless node. -/
theorem componentless_deactivation_scope_and_order
    (f cn : TreeNode) (m : RouterOutletMap) (p : List ActivatedRouteSnapshot)
    (r : ActivatedRouteSnapshot) (o w : RouterOutlet)
    (fn cnA : TreeNodeA) (mA : RouterOutletMap) :
    (f.value.routeConfig ≠ cn.value.routeConfig →
      cn.value.component = none →
      PreActivation.traverseRoutes f (some cn) (some m) p =
        (PreActivation.traverseChildRoutes f none
            (if f.value.component.isSome then
              (lookupKV m f.value.outlet).map RouterOutlet.outletMap
             else some m) p).map
          (fun rest => PreActivation.deactivateOutletMap m ++
            Check.canActivate p :: rest)) ∧
    (o.isActivated = true →
      PreActivation.deactivateOutletAndItChildren r (some o) =
        PreActivation.deactivateOutletMap o.outletMap ++
          [Check.canDeactivate o.component r]) ∧
    (ActivatedIn w m →
      Check.canDeactivate w.component w.snapshot
        ∈ PreActivation.deactivateOutletMap m) ∧
    (o.isActivated = true →
      ActivateRoutes.deactivateOutletAndItChildren (some o) =
        ActivateRoutes.deactivateOutletMap o.outletMap ++
          [RAction.deactivateOutlet o.component o.snapshot]) ∧
    (fn.value ≠ cnA.value → cnA.value.component = none →
      fn.value.component = none →
      ActivateRoutes.activateRoutes fn (some cnA) mA =
        (ActivateRoutes.activateChildRoutes fn none mA).map
          (fun rest => ActivateRoutes.deactivateOutletMap mA ++
            RAction.advanceActivatedRoute fn.value :: rest)) := by
  refine ⟨?_, ?_, ?_, ?_, ?_⟩
  · intro hcfg hcomp
    rw [PreActivation.traverseRoutes.eq_def]
    simp only [hcfg, hcomp, if_false, Option.isSome_none, Bool.false_eq_true]
    by_cases hfc : f.value.component.isSome
    · simp only [hfc, if_true]
      cases hrest : PreActivation.traverseChildRoutes f none
          ((lookupKV m f.value.outlet).map RouterOutlet.outletMap) p with
      | ok rest => simp [hrest, Bind.bind, Except.bind, Except.map]
      | error e => simp [hrest, Bind.bind, Except.bind, Except.map]
    · simp only [hfc, Bool.false_eq_true, if_false]
      cases hrest : PreActivation.traverseChildRoutes f none (some m) p with
      | ok rest => simp [hrest, Bind.bind, Except.bind, Except.map]
      | error e => simp [hrest, Bind.bind, Except.bind, Except.map]
  · intro hact
    rw [preDeactivateOutlet_some]
    simp [hact]
  · exact activatedIn_deactivation_recorded w m
  · intro hact
    rw [actDeactivateOutlet_some]
    simp [hact]
  · intro hne hcomp hfc
    rw [ActivateRoutes.activateRoutes.eq_def]
    simp only [hne, hcomp, hfc, if_false, Option.isSome_none, Bool.false_eq_true]
    cases hrest : ActivateRoutes.activateChildRoutes fn none mA with
    | ok rest => simp [hrest, Bind.bind, Except.bind, Except.map]
    | error e => simp [hrest, Bind.bind, Except.bind, Except.map]

theorem preDeactivateOutletMap_nil :
    PreActivation.deactivateOutletMap [] = [] := by
  rw [PreActivation.deactivateOutletMap.eq_def]

theorem actDeactivateOutletMap_nil :
    ActivateRoutes.deactivateOutletMap [] = [] := by
  rw [ActivateRoutes.deactivateOutletMap.eq_def]

theorem actDeactivateOutletMap_cons (k : String) (v : RouterOutlet)
    (rest : RouterOutletMap) :
    ActivateRoutes.deactivateOutletMap ((k, v) :: rest) =
      ActivateRoutes.deactivateOutletAndItChildren (some v) ++
        ActivateRoutes.deactivateOutletMap rest := by
  rw [ActivateRoutes.deactivateOutletMap.eq_def]

/-- Concrete route config used by the componentless grouping route,
distinct from `cfgT`. -/
def cfgU : RouteConfig :=
  { cfgId := 2, canActivate := [], canActivateChild := [], canDeactivate := [] }

/-- Concrete componentless previous snapshot at slot "primary" (a grouping
route). -/
def snapGroup : ActivatedRouteSnapshot :=
  { routeConfig := some cfgU, params := [], outlet := "primary",
    component := none }

/-- Concrete activated outlet nested inside `outletOuter`. -/
def outletInner : RouterOutlet := .mk true (some 3) snapOld []

/-- Concrete activated outlet at slot "primary" whose nested registry holds
`outletInner` at slot "aux". -/
def outletOuter : RouterOutlet := .mk true (some 2) snapOld [("aux", outletInner)]

theorem componentless_deactivation_scope_and_order_witness :
    PreActivation.traverseRoutes (.mk snapNew []) (some (.mk snapGroup []))
        (some [("primary", outletOuter)]) [snapNew] =
      Except.ok [Check.canDeactivate (some 3) snapOld,
        Check.canDeactivate (some 2) snapOld, Check.canActivate [snapNew]] ∧
    Check.canDeactivate (some 3) snapOld
      ∈ PreActivation.deactivateOutletMap [("primary", outletOuter)] ∧
    ActivateRoutes.activateRoutes (.mk ⟨8, "primary", none⟩ [])
        (some (.mk ⟨9, "primary", none⟩ [])) [("primary", outletW)] =
      Except.ok [RAction.deactivateOutlet (some 1) snapOld,
        RAction.advanceActivatedRoute ⟨8, "primary", none⟩] := by
  have h := componentless_deactivation_scope_and_order (.mk snapNew [])
    (.mk snapGroup []) [("primary", outletOuter)] [snapNew] snapOld
    outletOuter outletInner (.mk ⟨8, "primary", none⟩ [])
    (.mk ⟨9, "primary", none⟩ []) [("primary", outletW)]
  refine ⟨?_, ?_, ?_⟩
  · rw [h.1 (by decide) rfl, PreActivation.traverseChildRoutes.eq_def,
      PreActivation.traverseChildList.eq_def]
    simp [PreActivation.leftoverDeactivations, preDeactivateOutletMap_cons,
      preDeactivateOutletMap_nil, preDeactivateOutlet_some, outletOuter,
      outletInner, RouterOutlet.isActivated, RouterOutlet.component,
      RouterOutlet.snapshot, RouterOutlet.outletMap, TreeNode.children,
      TreeNode.value, nodeChildrenAsMap, Except.map, snapNew, snapOld]
  · exact h.2.2.1 (ActivatedIn.deeper "primary" outletOuter outletInner _
      (List.mem_singleton_self _) rfl
      (ActivatedIn.here "aux" outletInner _ (List.mem_singleton_self _) rfl))
  · rw [h.2.2.2.2 (by decide) rfl rfl, ActivateRoutes.activateChildRoutes.eq_def,
      ActivateRoutes.activateChildList.eq_def]
    simp [ActivateRoutes.leftoverDeactivations, actDeactivateOutletMap_cons,
      actDeactivateOutletMap_nil, actDeactivateOutlet_some, outletW,
      RouterOutlet.isActivated, RouterOutlet.component, RouterOutlet.snapshot,
      RouterOutlet.outletMap, TreeNodeA.children, TreeNodeA.value,
      nodeChildrenAsMapA, Except.map, snapOld]
